import Mathlib

/-!
Shallow embedding of the heavy-ion experimental-data catalogue
(`scripts/database.py` and `scripts/query_and_plot.py`).

Conventions of the embedding:
* Python values that appear as keyword arguments, references and trigger
  metadata are modelled by the small universe `PVal` (integers, strings,
  two-element numeric ranges, lists of ranges, string-keyed dictionaries).
  Fractional literals of the source (`0.5`, `0.2`, ...) are exact `Rat`s.
* Python exceptions are modelled by `PyError`; a raised exception is an
  `Except.error` value.  `PyError.nameError n` models `NameError: name
  n is not defined`, raised when an identifier is not bound in the module
  (in particular when a module was never imported).
* The SQLite database is modelled by `DB`: each table is a list of rows in
  insertion (rowid) order; `SELECT ... fetchone()` without `ORDER BY` is
  modelled as the first row in that order.  `INTEGER PRIMARY KEY` ids are
  auto-assigned as `max existing id + 1`, as SQLite does.
* The numeric series of the embedded observables are integer-valued, as in
  the concrete data of the source (`values=np.array([1601, ...])`);
  `json.dumps` on such lists is modelled by `jsonDumpsIntList` /
  `jsonDumpsBins`, producing the exact textual output of Python's
  `json.dumps` with default separators.
-/

/-- Universe of the Python values used by the observables: integers
(`harmonic_n`), strings (`particle_type`), two-element numeric ranges
(`rapidity_range`, `pT_range`), lists of ranges (`pT_bins`) and
string-to-string dictionaries (`reference`, `trigger_info`). -/
inductive PVal where
  | int (n : Int)
  | str (s : String)
  | range (lo hi : Rat)
  | ranges (bs : List (Rat × Rat))
  | strDict (kvs : List (String × String))
deriving DecidableEq, Repr

/-- Python exceptions relevant to the embedded code: `ValueError` (raised by
`Observable.__init__` and by `query_observables`), `NameError` (raised when an
unbound identifier such as an unimported module is referenced), and the
`sqlite3` error family (the raw storage-layer error kind, never produced by
the embedded paths but part of the error taxonomy). -/
inductive PyError where
  | valueError (msg : String)
  | nameError (unbound : String)
  | sqliteError (msg : String)
deriving DecidableEq, Repr

/-- The observable subclasses declared in `database.py`. -/
inductive ObsKind where
  | Multiplicity
  | MeanPT
  | IntegratedVn2
  | IntegratedVn4
  | PtDifferentialVn2
  | PtDifferentialVn4
  | TransverseEnergy
  | PTFluc
deriving DecidableEq, Repr

/-- `required_params` of each subclass, exactly as declared in
`database.py` lines 96-118. -/
def required_params : ObsKind → List String
  | ObsKind.Multiplicity => ["particle_type", "rapidity_range", "pT_range"]
  | ObsKind.MeanPT => ["particle_type", "rapidity_range", "pT_range"]
  | ObsKind.IntegratedVn2 => ["harmonic_n", "rapidity_range", "pT_range"]
  | ObsKind.IntegratedVn4 => ["harmonic_n", "rapidity_range", "pT_range"]
  | ObsKind.PtDifferentialVn2 => ["harmonic_n", "rapidity_range", "pT_bins"]
  | ObsKind.PtDifferentialVn4 => ["harmonic_n", "rapidity_range", "pT_bins"]
  | ObsKind.TransverseEnergy => ["particle_type", "rapidity_range", "pT_range"]
  | ObsKind.PTFluc => ["particle_type", "rapidity_range", "pT_range"]

/-- `self.__class__.__name__`, used in the `ValueError` message. -/
def className : ObsKind → String
  | ObsKind.Multiplicity => "Multiplicity"
  | ObsKind.MeanPT => "MeanPT"
  | ObsKind.IntegratedVn2 => "IntegratedVn2"
  | ObsKind.IntegratedVn4 => "IntegratedVn4"
  | ObsKind.PtDifferentialVn2 => "PtDifferentialVn2"
  | ObsKind.PtDifferentialVn4 => "PtDifferentialVn4"
  | ObsKind.TransverseEnergy => "TransverseEnergy"
  | ObsKind.PTFluc => "PTFluc"

/-- The positional/common arguments of `Observable.__init__`
(`database.py` line 72). Centrality bins are `[low, high]` pairs and the
measured series are the integer-valued arrays of the source data. -/
structure CommonFields where
  name : String
  short_name : String
  collision_system : String
  collaboration : String
  reference : PVal
  centrality_bins : List (Int × Int)
  values : List Int
  errors : List Int
  trigger_info : PVal
deriving DecidableEq, Repr

/-- A constructed observable instance: the common attributes set by
`Observable.__init__` plus the kind-specific attributes set by the
required-parameter loop (`params`, in the declared order of
`required_params`). -/
structure Observable where
  kind : ObsKind
  name : String
  short_name : String
  collision_system : String
  collaboration : String
  reference : PVal
  centrality_bins : List (Int × Int)
  values : List Int
  errors : List Int
  trigger_info : PVal
  params : List (String × PVal)
deriving DecidableEq, Repr

/-- The message of the `ValueError` raised at `database.py` line 88:
`f"Missing required parameter: {param} for {self.__class__.__name__}"`. -/
def missingParamMsg (param cls : String) : String :=
  "Missing required parameter: " ++ param ++ " for " ++ cls

/-- The loop of `Observable.__init__` lines 84-88: for each required
parameter in declared order, if it is among the keyword arguments set it as
an attribute, otherwise raise `ValueError` naming it.  Keyword arguments
outside the required list are never consulted. -/
def setRequiredParams (cls : String) (kwargs : List (String × PVal)) :
    List String → Except PyError (List (String × PVal))
  | [] => Except.ok []
  | p :: ps =>
    match List.lookup p kwargs with
    | some v => (setRequiredParams cls kwargs ps).map (fun rest => (p, v) :: rest)
    | none => Except.error (PyError.valueError (missingParamMsg p cls))

/-- Instantiating an observable subclass: `Observable.__init__` stores the
common fields unconditionally and then runs the required-parameter loop.
No array-length check and no extra-keyword check occur anywhere in the
constructor, and construction touches no database. -/
def construct (k : ObsKind) (c : CommonFields) (kwargs : List (String × PVal)) :
    Except PyError Observable :=
  (setRequiredParams (className k) kwargs (required_params k)).map (fun ps =>
    { kind := k
      name := c.name
      short_name := c.short_name
      collision_system := c.collision_system
      collaboration := c.collaboration
      reference := c.reference
      centrality_bins := c.centrality_bins
      values := c.values
      errors := c.errors
      trigger_info := c.trigger_info
      params := ps })

/-- Python `str.__repr__`-style quoting used inside `str(dict)`. -/
def pyQuote (s : String) : String := "\x27" ++ s ++ "\x27"

/-- `str(x)` for the values of `PVal`, used by
`insert_integrated_observable_data` for `str(obs.reference)`
(`database.py` line 322).  A dictionary prints as
`\x7b'k': 'v', ...\x7d`, as Python's `str` does. -/
def pyStr : PVal → String
  | PVal.int n => toString n
  | PVal.str s => s
  | PVal.range lo hi => "[" ++ toString lo ++ ", " ++ toString hi ++ "]"
  | PVal.ranges bs =>
      "[" ++ String.intercalate ", "
        (bs.map (fun b => "[" ++ toString b.1 ++ ", " ++ toString b.2 ++ "]")) ++ "]"
  | PVal.strDict kvs =>
      "\x7b" ++ String.intercalate ", "
        (kvs.map (fun kv => pyQuote kv.1 ++ ": " ++ pyQuote kv.2)) ++ "\x7d"

/-- `json.dumps(xs)` for a Python list of integers, with the default
separator `", "`. -/
def jsonDumpsIntList (xs : List Int) : String :=
  "[" ++ String.intercalate ", " (xs.map toString) ++ "]"

/-- `json.dumps(bs.tolist())` for the `[low, high]` centrality-bin array. -/
def jsonDumpsBins (bs : List (Int × Int)) : String :=
  "[" ++ String.intercalate ", "
    (bs.map (fun b => "[" ++ toString b.1 ++ ", " ++ toString b.2 ++ "]")) ++ "]"

/-- One row of the `experimental_results` table created at `database.py`
lines 274-288.  The `result_id` primary key is the list position (rowid
order) and is never supplied or read by the embedded code.  The created
table has columns `system_id, collaboration_id, observable_id,
centrality_bins, value, error, reference` and nothing else: in particular no
`trigger_info` column and no columns for kind-specific parameters. -/
structure FactRow where
  system_id : Nat
  collaboration_id : Nat
  observable_id : Nat
  centrality_bins : String
  value : String
  error : String
  reference : String
deriving DecidableEq, Repr

/-- The SQLite database `experimental_data.db`: each table as a list of rows
in rowid (insertion) order. -/
structure DB where
  systems : List (Nat × String)
  collaborations : List (Nat × String)
  observables : List (Nat × String)
  experimental_results : List FactRow
deriving DecidableEq, Repr

/-- The freshly created (empty) database. -/
def dbEmpty : DB :=
  { systems := [], collaborations := [], observables := [], experimental_results := [] }

/-- Largest id present in a dimension table. -/
def maxId (t : List (Nat × String)) : Nat := t.foldr (fun r m => max r.1 m) 0

/-- The id SQLite auto-assigns to the next `INTEGER PRIMARY KEY` row. -/
def nextId (t : List (Nat × String)) : Nat := maxId t + 1

/-- `INSERT OR IGNORE INTO t (id, name) VALUES (i, nm)`: ignored exactly when
a row with primary key `i` already exists (the only uniqueness constraint the
created dimension tables declare is the primary key). -/
def insertOrIgnoreId (t : List (Nat × String)) (i : Nat) (nm : String) :
    List (Nat × String) :=
  if t.any (fun r => r.1 == i) then t else t ++ [(i, nm)]

/-- The default-row inserts of `populate_database` (`database.py` lines
290-298): `INSERT OR IGNORE INTO systems VALUES (1, 'Pb-Pb-2760')` and
`INSERT OR IGNORE INTO collaborations VALUES (1, 'ALICE')`.  The `CREATE
TABLE IF NOT EXISTS` statements that precede them change no rows. -/
def populate_database_defaults (db : DB) : DB :=
  { db with
    systems := insertOrIgnoreId db.systems 1 "Pb-Pb-2760"
    collaborations := insertOrIgnoreId db.collaborations 1 "ALICE" }

/-- `SELECT observable_id FROM observables WHERE observable_name = ?`
followed by `fetchone()[0]`: the id of the first row (in rowid order) whose
name matches. -/
def selectObservableIdByName (t : List (Nat × String)) (nm : String) : Option Nat :=
  ((t.filter (fun r => r.2 == nm)).head?).map (fun r => r.1)

/-- `insert_integrated_observable_data(obs)` (`database.py` lines 301-323):
1. unconditionally `INSERT INTO observables (observable_name) VALUES
   (obs.short_name)` — there is no existence check, so a repeated short name
   gains a second row;
2. `SELECT observable_id ... WHERE observable_name = ?` and take
   `fetchone()[0]` (after step 1 a matching row always exists, so the
   `getD 0` default is never taken);
3. insert one `experimental_results` row with the hardcoded
   `system_id = 1` and `collaboration_id = 1` (source comments: "Using the
   default system_id/collaboration_id"), the JSON dumps of the three series
   and `str(obs.reference)`.  Neither `obs.trigger_info` nor any
   kind-specific parameter is written. -/
def insert_integrated_observable_data (obs : Observable) (db : DB) : DB :=
  let newObservables := db.observables ++ [(nextId db.observables, obs.short_name)]
  let observable_id := (selectObservableIdByName newObservables obs.short_name).getD 0
  { db with
    observables := newObservables
    experimental_results := db.experimental_results ++
      [{ system_id := 1
         collaboration_id := 1
         observable_id := observable_id
         centrality_bins := jsonDumpsBins obs.centrality_bins
         value := jsonDumpsIntList obs.values
         error := jsonDumpsIntList obs.errors
         reference := pyStr obs.reference }] }

/-- The fields the module-level `database_schema` dictionary documents for
`experimental_results` (`database.py` lines 31-41). -/
def database_schema_experimental_results : List String :=
  ["result_id", "system_id", "collaboration_id", "observable_id",
   "centrality_bins", "value", "error", "reference", "trigger_info"]

/-- The columns of the `experimental_results` table actually created by
`populate_database` (`database.py` lines 274-288). -/
def experimental_results_columns : List String :=
  ["result_id", "system_id", "collaboration_id", "observable_id",
   "centrality_bins", "value", "error", "reference"]

/-- A decoded JSON value of the shapes stored by the embedded code:
numbers and (nested) arrays. -/
inductive JVal where
  | num (n : Int)
  | arr (xs : List JVal)

/-- Drop leading spaces (the only whitespace `json.dumps` emits). -/
def skipSpaces : List Char → List Char
  | ' ' :: cs => skipSpaces cs
  | cs => cs

/-- Split a leading run of decimal digits from the input. -/
def takeDigits : List Char → List Char × List Char
  | [] => ([], [])
  | c :: cs =>
    if c.isDigit then
      let r := takeDigits cs
      (c :: r.1, r.2)
    else ([], c :: cs)

/-- Decimal digits to the `Nat` they denote. -/
def digitsToNat (ds : List Char) : Nat :=
  ds.foldl (fun a c => a * 10 + (c.toNat - 48)) 0

mutual

/-- Fuel-bounded recursive-descent parser for `JVal` (a JSON value that is an
integer or an array).  Returns the parsed value and the unconsumed input. -/
def parseJVal : Nat → List Char → Option (JVal × List Char)
  | 0, _ => none
  | Nat.succ fuel, cs =>
    match skipSpaces cs with
    | '[' :: rest =>
      match skipSpaces rest with
      | ']' :: rest2 => some (JVal.arr [], rest2)
      | rest2 => parseJItems fuel rest2 []
    | '-' :: rest =>
      match takeDigits rest with
      | ([], _) => none
      | (ds, rest2) => some (JVal.num (-(Int.ofNat (digitsToNat ds))), rest2)
    | cs2 =>
      match takeDigits cs2 with
      | ([], _) => none
      | (ds, rest2) => some (JVal.num (Int.ofNat (digitsToNat ds)), rest2)

/-- Parse the comma-separated items of a JSON array up to the closing
bracket. -/
def parseJItems : Nat → List Char → List JVal → Option (JVal × List Char)
  | 0, _, _ => none
  | Nat.succ fuel, cs, acc =>
    match parseJVal fuel cs with
    | none => none
    | some (v, rest) =>
      match skipSpaces rest with
      | ',' :: rest2 => parseJItems fuel rest2 (acc ++ [v])
      | ']' :: rest2 => some (JVal.arr (acc ++ [v]), rest2)
      | _ => none

end

/-- `json.loads(s)` for the numeric payloads of this store.  A parse failure
is `json.JSONDecodeError`, a `ValueError` subclass. -/
def json_loads (s : String) : Except PyError JVal :=
  match parseJVal (s.length + 2) s.data with
  | some (v, rest) =>
    if skipSpaces rest = [] then Except.ok v
    else Except.error (PyError.valueError ("Extra data: " ++ s))
  | none => Except.error (PyError.valueError ("Expecting value: " ++ s))

/-- The modules imported by `query_and_plot.py` (lines 2-4).  `json` is not
among them, so evaluating the identifier `json` in that module raises
`NameError`. -/
def query_and_plot_imports : List String := ["sqlite3", "matplotlib.pyplot", "numpy"]

/-- The rows produced by the `SELECT ... FROM experimental_results JOIN
observables ON experimental_results.observable_id = observables.observable_id
WHERE observables.observable_name = ?` of `query_observables`
(`query_and_plot.py` lines 12-17), in `experimental_results` rowid order. -/
def queryJoinRows (db : DB) (nm : String) : List FactRow :=
  db.experimental_results.filter (fun r =>
    db.observables.any (fun o => o.1 == r.observable_id && o.2 == nm))

/-- `cursor.fetchone()` on that query: the first joined row, if any. -/
def fetchFirstMatch (db : DB) (nm : String) : Option FactRow :=
  (queryJoinRows db nm).head?

/-- `query_observables(cursor, observable_name)` (`query_and_plot.py` lines
10-26).  If a row is found the source evaluates `json.loads(result[0])`;
resolving the identifier `json` fails with `NameError` because the module
never imports `json`, so the decode never runs.  If no row is found the
source raises `ValueError(f"No data found for observable: ...")`. -/
def query_observables (db : DB) (nm : String) :
    Except PyError (JVal × JVal × JVal × String) :=
  match fetchFirstMatch db nm with
  | some r =>
    if query_and_plot_imports.contains "json" then
      match json_loads r.centrality_bins, json_loads r.value, json_loads r.error with
      | Except.ok b, Except.ok v, Except.ok e => Except.ok (b, v, e, r.reference)
      | Except.error err, _, _ => Except.error err
      | _, Except.error err, _ => Except.error err
      | _, _, Except.error err => Except.error err
    else Except.error (PyError.nameError "json")
  | none => Except.error (PyError.valueError ("No data found for observable: " ++ nm))

/-- The `except ValueError as e: print(e)` handler of the module's
`__main__` block (`query_and_plot.py` lines 76-77): exactly the
`ValueError`s are caught and turned into a printed message the caller can
branch on. -/
def main_handles : PyError → Bool
  | PyError.valueError _ => true
  | _ => false

/-- Whether an error is of the raw storage-layer (`sqlite3`) kind. -/
def is_storage_error : PyError → Bool
  | PyError.sqliteError _ => true
  | _ => false

/-- The common arguments of the `alice_ch_mult` usage example
(`database.py` lines 124-144; it is also the concrete scenario of the
specification).  The `trigger_info` literal of the source is syntactically
unterminated; its evident value is used. -/
def alice_common : CommonFields :=
  { name := "Charged-particle multiplicity"
    short_name := "dNch_deta"
    collision_system := "Pb-Pb-2760"
    collaboration := "ALICE"
    reference := PVal.strDict
      [("arXiv", "arxiv:1012.1657"),
       ("doi", "10.1103/PhysRevLett.106.032301"),
       ("title", "Centrality dependence of the charged-particle multiplicity density at mid-rapidity in Pb-Pb collisions at $\\sqrt\x7bs_\x7bNN\x7d\x7d=2.76$ TeV")]
    centrality_bins :=
      [(0, 5), (5, 10), (10, 20), (20, 30), (30, 40),
       (40, 50), (50, 60), (60, 70), (70, 80)]
    values := [1601, 1294, 966, 649, 426, 261, 149, 76, 35]
    errors := [60, 49, 37, 23, 15, 9, 6, 4, 2]
    trigger_info := PVal.strDict
      [("Trigger", "VZERO and SPD detectors"),
       ("Centrality Selection", "VOM amplitude")] }

/-- The keyword arguments of the `alice_ch_mult` example:
`particle_type="charged"`, `rapidity_range=[-0.5, 0.5]`,
`pT_range=[0.2, 5.0]`. -/
def alice_kwargs : List (String × PVal) :=
  [("particle_type", PVal.str "charged"),
   ("rapidity_range", PVal.range (mkRat (-1) 2) (mkRat 1 2)),
   ("pT_range", PVal.range (mkRat 1 5) 5)]

/-- The entity `Multiplicity(...)` constructs from `alice_common` and
`alice_kwargs`. -/
def alice_entity : Observable :=
  { kind := ObsKind.Multiplicity
    name := "Charged-particle multiplicity"
    short_name := "dNch_deta"
    collision_system := "Pb-Pb-2760"
    collaboration := "ALICE"
    reference := PVal.strDict
      [("arXiv", "arxiv:1012.1657"),
       ("doi", "10.1103/PhysRevLett.106.032301"),
       ("title", "Centrality dependence of the charged-particle multiplicity density at mid-rapidity in Pb-Pb collisions at $\\sqrt\x7bs_\x7bNN\x7d\x7d=2.76$ TeV")]
    centrality_bins :=
      [(0, 5), (5, 10), (10, 20), (20, 30), (30, 40),
       (40, 50), (50, 60), (60, 70), (70, 80)]
    values := [1601, 1294, 966, 649, 426, 261, 149, 76, 35]
    errors := [60, 49, 37, 23, 15, 9, 6, 4, 2]
    trigger_info := PVal.strDict
      [("Trigger", "VZERO and SPD detectors"),
       ("Centrality Selection", "VOM amplitude")]
    params :=
      [("particle_type", PVal.str "charged"),
       ("rapidity_range", PVal.range (mkRat (-1) 2) (mkRat 1 2)),
       ("pT_range", PVal.range (mkRat 1 5) 5)] }

/-- Keyword arguments for an `IntegratedVn2` construction attempt that
supplies `rapidity_range=[-0.8, 0.8]` and `pT_range=[0.2, 5.0]` but omits
`harmonic_n` (the specification's concrete failure scenario). -/
def vn2_kwargs : List (String × PVal) :=
  [("rapidity_range", PVal.range (mkRat (-4) 5) (mkRat 4 5)),
   ("pT_range", PVal.range (mkRat 1 5) 5)]

/-- Common arguments whose three series have pairwise different lengths
(3 bins, 2 values, 1 error). -/
def mismatched_common : CommonFields :=
  { name := "Mismatched series"
    short_name := "bad_lengths"
    collision_system := "Pb-Pb-2760"
    collaboration := "ALICE"
    reference := PVal.strDict [("arXiv", "arXiv:0000.0000")]
    centrality_bins := [(0, 5), (5, 10), (10, 20)]
    values := [1601, 1294]
    errors := [60]
    trigger_info := PVal.strDict [("Trigger", "VZERO")] }

/-- The entity `Multiplicity(...)` constructs from `mismatched_common` and
`alice_kwargs` — the constructor performs no length check. -/
def mismatched_entity : Observable :=
  { kind := ObsKind.Multiplicity
    name := "Mismatched series"
    short_name := "bad_lengths"
    collision_system := "Pb-Pb-2760"
    collaboration := "ALICE"
    reference := PVal.strDict [("arXiv", "arXiv:0000.0000")]
    centrality_bins := [(0, 5), (5, 10), (10, 20)]
    values := [1601, 1294]
    errors := [60]
    trigger_info := PVal.strDict [("Trigger", "VZERO")]
    params :=
      [("particle_type", PVal.str "charged"),
       ("rapidity_range", PVal.range (mkRat (-1) 2) (mkRat 1 2)),
       ("pT_range", PVal.range (mkRat 1 5) 5)] }

/-- `alice_kwargs` plus an extra keyword `harmonic_n=2` that is not among
the requirements of `Multiplicity`. -/
def extra_kwargs : List (String × PVal) :=
  alice_kwargs ++ [("harmonic_n", PVal.int 2)]

/-- A second measurement sharing the short name `dNch_deta` (a different
collaboration and reference), used to exercise the ambiguous-query and
duplicate-dimension behaviour. -/
def second_dNch_entity : Observable :=
  { kind := ObsKind.Multiplicity
    name := "Charged-particle multiplicity"
    short_name := "dNch_deta"
    collision_system := "Au-Au-200"
    collaboration := "STAR"
    reference := PVal.strDict [("arXiv", "arXiv:0808.2041")]
    centrality_bins := [(0, 5), (5, 10)]
    values := [500, 400]
    errors := [20, 15]
    trigger_info := PVal.strDict [("Trigger", "BBC and TOF detectors")]
    params :=
      [("particle_type", PVal.str "charged"),
       ("rapidity_range", PVal.range (mkRat (-1) 2) (mkRat 1 2)),
       ("pT_range", PVal.range (mkRat 1 5) 5)] }

/-- The database after `populate_database`'s default inserts followed by two
saves of measurements that share the short name `dNch_deta`. -/
def db_two_saves : DB :=
  insert_integrated_observable_data second_dNch_entity
    (insert_integrated_observable_data alice_entity (populate_database_defaults dbEmpty))

/-- The fact row written by the first of the two saves. -/
def first_dNch_row : FactRow :=
  { system_id := 1
    collaboration_id := 1
    observable_id := 1
    centrality_bins := jsonDumpsBins alice_entity.centrality_bins
    value := jsonDumpsIntList alice_entity.values
    error := jsonDumpsIntList alice_entity.errors
    reference := pyStr alice_entity.reference }

theorem setRequiredParams_first_missing (cls : String) (kwargs : List (String × PVal)) :
    ∀ (ps : List String) (p : String),
      ps.find? (fun q => (List.lookup q kwargs).isNone) = some p →
      setRequiredParams cls kwargs ps
        = Except.error (PyError.valueError (missingParamMsg p cls)) := by
  intro ps
  induction ps with
  | nil => intro p h; simp at h
  | cons q ps ih =>
    intro p h
    cases hl : List.lookup q kwargs with
    | none =>
      have hq : q = p := by
        simp [List.find?, hl] at h
        exact h
      subst hq
      simp [setRequiredParams, hl]
    | some v =>
      have h' : ps.find? (fun q => (List.lookup q kwargs).isNone) = some p := by
        simp only [List.find?, hl, Option.isNone_some] at h
        exact h
      simp [setRequiredParams, hl, ih p h', Except.map]

theorem setRequiredParams_ok_of_all_present (cls : String) (kwargs : List (String × PVal)) :
    ∀ ps : List String, (∀ p ∈ ps, (List.lookup p kwargs).isSome) →
      ∃ res, setRequiredParams cls kwargs ps = Except.ok res := by
  intro ps
  induction ps with
  | nil => intro _; exact ⟨[], rfl⟩
  | cons q ps ih =>
    intro h
    have hq : (List.lookup q kwargs).isSome = true := h q (List.mem_cons_self q ps)
    cases hl : List.lookup q kwargs with
    | none => rw [hl] at hq; simp at hq
    | some v =>
      obtain ⟨res, hres⟩ := ih (fun p hp => h p (List.mem_cons_of_mem q hp))
      exact ⟨(q, v) :: res, by simp [setRequiredParams, hl, hres, Except.map]⟩

theorem setRequiredParams_keys (cls : String) (kwargs : List (String × PVal)) :
    ∀ (ps : List String) (res : List (String × PVal)),
      setRequiredParams cls kwargs ps = Except.ok res →
      ∀ q v, (q, v) ∈ res → q ∈ ps := by
  intro ps
  induction ps with
  | nil =>
    intro res hres q v hmem
    simp [setRequiredParams] at hres
    subst hres
    simp at hmem
  | cons a ps ih =>
    intro res hres q v hmem
    cases hl : List.lookup a kwargs with
    | none => simp [setRequiredParams, hl] at hres
    | some w =>
      cases hrec : setRequiredParams cls kwargs ps with
      | error e => simp [setRequiredParams, hl, hrec, Except.map] at hres
      | ok res' =>
        have hres' : res = (a, w) :: res' := by
          have hok : setRequiredParams cls kwargs (a :: ps) = Except.ok ((a, w) :: res') := by
            simp [setRequiredParams, hl, hrec, Except.map]
          rw [hok] at hres
          exact (Except.ok.inj hres).symm
        subst hres'
        rcases List.mem_cons.mp hmem with heq | htail
        · have hqa : q = a := congrArg Prod.fst heq
          subst hqa
          exact List.mem_cons_self q ps
        · exact List.mem_cons_of_mem a (ih res' hrec q v htail)

/-- Claim C1 (code_bug): constructing the specification's concrete
Multiplicity entity succeeds, but `save` followed by `load("dNch_deta")`
does not return the entity: `query_observables` raises
`NameError` for the unimported `json` module before decoding anything, so
the round trip never completes (and the fact row never held the
kind-specific parameters or trigger metadata to begin with). -/
theorem roundtrip_fails_on_alice_multiplicity :
    construct ObsKind.Multiplicity alice_common alice_kwargs = Except.ok alice_entity
    ∧ query_observables
        (insert_integrated_observable_data alice_entity (populate_database_defaults dbEmpty))
        "dNch_deta"
      = Except.error (PyError.nameError "json") :=
  ⟨rfl, rfl⟩

/-- Claim C2 (code_bug): two saves of entities sharing the observable
natural key do not leave one dimension row: each save unconditionally
inserts a fresh `observables` row, so the table gains two rows for the same
name (while both saves do resolve the same, first matching surrogate id). -/
theorem observables_dimension_row_duplicated_on_repeated_save
    (obs : Observable) (db : DB) :
    ((insert_integrated_observable_data obs
        (insert_integrated_observable_data obs db)).observables.filter
      (fun r => r.2 == obs.short_name)).length
    = (db.observables.filter (fun r => r.2 == obs.short_name)).length + 2 := by
  simp [insert_integrated_observable_data, List.filter_append]

/-- Claim C3 (confirmed): whenever some required parameter of the entity's
kind is absent from the keyword arguments, construction raises `ValueError`
naming the first missing parameter in the kind's declared order; the
constructor touches no store. -/
theorem construct_missing_required_param_fails_first
    (k : ObsKind) (c : CommonFields) (kwargs : List (String × PVal)) (p : String)
    (h : (required_params k).find? (fun q => (List.lookup q kwargs).isNone) = some p) :
    construct k c kwargs
      = Except.error (PyError.valueError (missingParamMsg p (className k))) := by
  unfold construct
  rw [setRequiredParams_first_missing (className k) kwargs (required_params k) p h]
  rfl

/-- Witness for C3: `IntegratedVn2` constructed without `harmonic_n` fails
with `ValueError: Missing required parameter: harmonic_n for IntegratedVn2`. -/
theorem construct_missing_required_param_fails_first_witness :
    (required_params ObsKind.IntegratedVn2).find?
        (fun q => (List.lookup q vn2_kwargs).isNone) = some "harmonic_n"
    ∧ construct ObsKind.IntegratedVn2 alice_common vn2_kwargs
        = Except.error (PyError.valueError
            (missingParamMsg "harmonic_n" (className ObsKind.IntegratedVn2))) :=
  ⟨by decide,
   construct_missing_required_param_fails_first ObsKind.IntegratedVn2 alice_common
     vn2_kwargs "harmonic_n" (by decide)⟩

/-- Claim C4 counterexample: a Multiplicity construction whose three series
have pairwise different lengths (3 bins, 2 values, 1 error) succeeds, so
construction does not fail on mismatched lengths and a successfully
constructed entity need not satisfy the length invariant. -/
theorem construct_succeeds_despite_length_mismatch :
    construct ObsKind.Multiplicity mismatched_common alice_kwargs
      = Except.ok mismatched_entity
    ∧ mismatched_entity.values.length = 2
    ∧ mismatched_entity.errors.length = 1
    ∧ mismatched_entity.centrality_bins.length = 3 :=
  ⟨rfl, rfl, rfl, rfl⟩

/-- Claim C4 as amended (corrected): construction validates only the
presence of the kind's required parameters; whenever they are all present it
succeeds, regardless of the lengths of `values`, `errors` and
`centrality_bins`. -/
theorem construct_checks_only_required_params_presence
    (k : ObsKind) (c : CommonFields) (kwargs : List (String × PVal))
    (h : ∀ p ∈ required_params k, (List.lookup p kwargs).isSome) :
    ∃ e, construct k c kwargs = Except.ok e := by
  obtain ⟨res, hres⟩ :=
    setRequiredParams_ok_of_all_present (className k) kwargs (required_params k) h
  exact ⟨_, by unfold construct; rw [hres]; rfl⟩

/-- Witness for the amended C4, at the mismatched-length input. -/
theorem construct_checks_only_required_params_presence_witness :
    (∀ p ∈ required_params ObsKind.Multiplicity, (List.lookup p alice_kwargs).isSome)
    ∧ ∃ e, construct ObsKind.Multiplicity mismatched_common alice_kwargs = Except.ok e :=
  ⟨by decide,
   construct_checks_only_required_params_presence ObsKind.Multiplicity
     mismatched_common alice_kwargs (by decide)⟩

/-- Claim C5 (code_bug): the fact row written by a save carries the
hardcoded `system_id = 1` and `collaboration_id = 1` for every entity,
whatever its `collision_system` and `collaboration` fields are — the ids are
never resolved from the entity. -/
theorem save_writes_hardcoded_dimension_ids (obs : Observable) (db : DB) :
    ∃ r : FactRow,
      (insert_integrated_observable_data obs db).experimental_results
        = db.experimental_results ++ [r]
      ∧ r.system_id = 1 ∧ r.collaboration_id = 1 :=
  ⟨_, rfl, rfl, rfl⟩

/-- Claim C6 (code_bug): the module's own `database_schema` documentation
lists a `trigger_info` column for `experimental_results`, but the table
`populate_database` creates has no such column; the single inserted fact row
holds only the three dimension ids, the JSON dumps of the three series and
`str(reference)` — no trigger metadata and no kind-specific parameters. -/
theorem fact_row_lacks_trigger_info_and_kind_params :
    ("trigger_info" ∈ database_schema_experimental_results)
    ∧ ("trigger_info" ∉ experimental_results_columns)
    ∧ ∀ (obs : Observable) (db : DB), ∃ r : FactRow,
        (insert_integrated_observable_data obs db).experimental_results
          = db.experimental_results ++ [r]
        ∧ r.centrality_bins = jsonDumpsBins obs.centrality_bins
        ∧ r.value = jsonDumpsIntList obs.values
        ∧ r.error = jsonDumpsIntList obs.errors
        ∧ r.reference = pyStr obs.reference :=
  ⟨by decide, by decide, fun _ _ => ⟨_, rfl, rfl, rfl, rfl, rfl⟩⟩

/-- Claim C7 (code_bug): with two fact rows sharing the short name
`dNch_deta` in the store, the query joins both rows but `fetchone()` hands
back only the first one — the second measurement is silently invisible, with
no disambiguating variant and no list-returning variant. -/
theorem query_returns_first_match_only :
    (queryJoinRows db_two_saves "dNch_deta").length = 2
    ∧ fetchFirstMatch db_two_saves "dNch_deta" = some first_dNch_row
    ∧ first_dNch_row.value = jsonDumpsIntList alice_entity.values
    ∧ jsonDumpsIntList alice_entity.values ≠ jsonDumpsIntList second_dNch_entity.values :=
  ⟨rfl, rfl, rfl, by decide⟩

/-- Claim C8 (confirmed): querying a name with no matching fact row yields
the typed outcome `ValueError("No data found for observable: ...")`, which
the module's `__main__` handler catches (the caller can branch on it) and
which is not a raw storage-layer (`sqlite3`) error kind. -/
theorem query_not_found_is_caller_visible_value_error (db : DB) (nm : String)
    (h : fetchFirstMatch db nm = none) :
    ∃ e, query_observables db nm = Except.error e
      ∧ main_handles e = true ∧ is_storage_error e = false := by
  refine ⟨PyError.valueError ("No data found for observable: " ++ nm), ?_, rfl, rfl⟩
  unfold query_observables
  rw [h]

/-- Witness for C8: `load("nonexistent_observable")` on the empty store. -/
theorem query_not_found_is_caller_visible_value_error_witness :
    ∃ e, query_observables dbEmpty "nonexistent_observable" = Except.error e
      ∧ main_handles e = true ∧ is_storage_error e = false :=
  query_not_found_is_caller_visible_value_error dbEmpty "nonexistent_observable" rfl

/-- Claim C9 counterexample: a Multiplicity construction with the extra
keyword `harmonic_n=2` (not among the kind's requirements) succeeds, and the
extra field is silently dropped: it is not among the entity's attributes. -/
theorem construct_silently_drops_extra_field :
    construct ObsKind.Multiplicity alice_common extra_kwargs = Except.ok alice_entity
    ∧ List.lookup "harmonic_n" alice_entity.params = none :=
  ⟨rfl, rfl⟩

/-- Claim C9 as amended (corrected): supplied kind-specific fields outside
the kind's declared requirements never cause a failure and are never kept:
construction succeeds whenever the required parameters are present, and
every attribute of the constructed entity is one of the declared required
parameters. -/
theorem construct_params_subset_of_required
    (k : ObsKind) (c : CommonFields) (kwargs : List (String × PVal))
    (h : ∀ p ∈ required_params k, (List.lookup p kwargs).isSome) :
    ∃ e, construct k c kwargs = Except.ok e
      ∧ ∀ q v, (q, v) ∈ e.params → q ∈ required_params k := by
  obtain ⟨res, hres⟩ :=
    setRequiredParams_ok_of_all_present (className k) kwargs (required_params k) h
  refine ⟨_, by unfold construct; rw [hres]; rfl, ?_⟩
  intro q v hmem
  exact setRequiredParams_keys (className k) kwargs (required_params k) res hres q v hmem

/-- Witness for the amended C9, at the extra-keyword input. -/
theorem construct_params_subset_of_required_witness :
    (∀ p ∈ required_params ObsKind.Multiplicity, (List.lookup p extra_kwargs).isSome)
    ∧ ∃ e, construct ObsKind.Multiplicity alice_common extra_kwargs = Except.ok e
        ∧ ∀ q v, (q, v) ∈ e.params → q ∈ required_params ObsKind.Multiplicity :=
  ⟨by decide,
   construct_params_subset_of_required ObsKind.Multiplicity alice_common
     extra_kwargs (by decide)⟩

/-- Claim C10 (confirmed): whenever a fact row matches the queried name,
`query_observables` raises `NameError` for `json` (the module calls
`json.loads` without importing `json`); only the not-found branch completes
without that fault, raising the caught `ValueError` instead. -/
theorem query_found_raises_name_error_json (db : DB) (nm : String) :
    (∀ r, fetchFirstMatch db nm = some r →
        query_observables db nm = Except.error (PyError.nameError "json"))
    ∧ (fetchFirstMatch db nm = none →
        query_observables db nm
          = Except.error (PyError.valueError ("No data found for observable: " ++ nm))) := by
  constructor
  · intro r h
    unfold query_observables
    rw [h]
    rfl
  · intro h
    unfold query_observables
    rw [h]

/-- Witness for C10: on the twice-saved store, the populated name triggers
the `NameError` and an absent name the `ValueError`. -/
theorem query_found_raises_name_error_json_witness :
    query_observables db_two_saves "dNch_deta" = Except.error (PyError.nameError "json")
    ∧ query_observables db_two_saves "mean_pT_pion"
        = Except.error (PyError.valueError ("No data found for observable: " ++ "mean_pT_pion")) :=
  ⟨(query_found_raises_name_error_json db_two_saves "dNch_deta").1 first_dNch_row rfl,
   (query_found_raises_name_error_json db_two_saves "mean_pT_pion").2 rfl⟩
